import Mathlib

/-!
Shallow embedding of the DXGL OpenGL utility header (RAII wrappers around
driver handles, debug-string tables, a stderr debug callback and a scoped
debug-group marker).

Each wrapper method is embedded as a pure function from the wrapper's field
state (and any value the driver would return, passed as an explicit oracle
argument) to the new field state together with the list of driver calls the
method issues, in order.  Driver calls are the constructors of `GLCall`.
-/

/-- OpenGL object handle type (`GLuint`). -/
abbrev GLuint := Nat

/-- OpenGL enumeration type (`GLenum`). -/
abbrev GLenum := Nat

-- OpenGL constants used by the header (values from the OpenGL registry;
-- the header itself deliberately omits the GL includes).
def GL_FALSE : Int := 0
def GL_VERTEX_ARRAY : GLenum := 0x8074
def GL_BUFFER : GLenum := 0x82E0
def GL_TEXTURE : GLenum := 0x1702
def GL_FRAMEBUFFER : GLenum := 0x8D40
def GL_SHADER : GLenum := 0x82E1
def GL_PROGRAM : GLenum := 0x82E2
def GL_COMPILE_STATUS : GLenum := 0x8B81
def GL_LINK_STATUS : GLenum := 0x8B82
def GL_INFO_LOG_LENGTH : GLenum := 0x8B84
def GL_DEBUG_SOURCE_API : GLenum := 0x8246
def GL_DEBUG_SOURCE_WINDOW_SYSTEM : GLenum := 0x8247
def GL_DEBUG_SOURCE_SHADER_COMPILER : GLenum := 0x8248
def GL_DEBUG_SOURCE_THIRD_PARTY : GLenum := 0x8249
def GL_DEBUG_SOURCE_APPLICATION : GLenum := 0x824A
def GL_DEBUG_SOURCE_OTHER : GLenum := 0x824B
def GL_DEBUG_TYPE_ERROR : GLenum := 0x824C
def GL_DEBUG_TYPE_DEPRECATED_BEHAVIOR : GLenum := 0x824D
def GL_DEBUG_TYPE_UNDEFINED_BEHAVIOR : GLenum := 0x824E
def GL_DEBUG_TYPE_PORTABILITY : GLenum := 0x824F
def GL_DEBUG_TYPE_PERFORMANCE : GLenum := 0x8250
def GL_DEBUG_TYPE_OTHER : GLenum := 0x8251
def GL_DEBUG_TYPE_MARKER : GLenum := 0x8268
def GL_DEBUG_SEVERITY_HIGH : GLenum := 0x9146
def GL_DEBUG_SEVERITY_MEDIUM : GLenum := 0x9147
def GL_DEBUG_SEVERITY_LOW : GLenum := 0x9148
def GL_DEBUG_SEVERITY_NOTIFICATION : GLenum := 0x826B
def GL_DEBUG_OUTPUT : GLenum := 0x92E0

/-- One driver call (or observable process effect) issued by the wrapper
layer, with its arguments as the source passes them.  `heapAlloc` records a
`new char[n]` allocation; `printfLog` / `fprintfStderr` / `exitCall` record
the C library effects of the source. -/
inductive GLCall where
  | genVertexArrays (handle : GLuint)
  | bindVertexArray (handle : GLuint)
  | objectLabel (identifier : GLenum) (handle : GLuint) (label : String)
  | genBuffers (handle : GLuint)
  | bindBuffer (target : GLenum) (handle : GLuint)
  | bufferStorage (target : GLenum) (size : Int)
  | bufferData (target : GLenum) (size : Int) (usage : GLenum)
  | mapBuffer (target : GLenum) (access : GLenum)
  | unmapBuffer (target : GLenum)
  | genTextures (handle : GLuint)
  | bindTexture (target : GLenum) (handle : GLuint)
  | texStorage1D (target : GLenum) (levels : Int) (internalformat : GLenum) (width : Int)
  | texStorage2D (target : GLenum) (levels : Int) (internalformat : GLenum)
      (width : Int) (height : Int)
  | texStorage3D (target : GLenum) (levels : Int) (internalformat : GLenum)
      (width : Int) (height : Int) (depth : Int)
  | genFramebuffers (handle : GLuint)
  | bindFramebuffer (target : GLenum) (handle : GLuint)
  | createShader (ty : GLenum) (handle : GLuint)
  | shaderSource (handle : GLuint) (code : String)
  | compileShader (handle : GLuint)
  | getShaderiv (handle : GLuint) (pname : GLenum)
  | getShaderInfoLog (handle : GLuint) (maxLength : Int)
  | createProgram (handle : GLuint)
  | attachShader (program : GLuint) (shader : GLuint)
  | detachShader (program : GLuint) (shader : GLuint)
  | linkProgram (handle : GLuint)
  | validateProgram (handle : GLuint)
  | getProgramiv (handle : GLuint) (pname : GLenum)
  | useProgram (handle : GLuint)
  | getProgramInfoLog (handle : GLuint) (maxLength : Int)
  | heapAlloc (size : Nat)
  | printfLog (log : Option String)
  | fprintfStderr (line : String)
  | exitCall (code : Int)
  | pushDebugGroup (source : GLenum) (id : GLuint) (length : Int) (message : String)
  | popDebugGroup
  deriving DecidableEq, Repr

/-- `struct VAO final : GLHandle`. -/
structure VAO where
  handle : GLuint
  deriving DecidableEq, Repr

/-- `VAO::VAO(std::string_view name)`: gen, bind, label.  The driver-chosen
handle is the `handle` oracle argument. -/
def VAO.construct (name : String) (handle : GLuint) : VAO × List GLCall :=
  ({ handle := handle },
   [GLCall.genVertexArrays handle, GLCall.bindVertexArray handle,
    GLCall.objectLabel GL_VERTEX_ARRAY handle name])

/-- `struct GLBuffer final : GLHandle` with its `GLenum target` field. -/
structure GLBuffer where
  handle : GLuint
  target : GLenum
  deriving DecidableEq, Repr

/-- `GLBuffer::GLBuffer(GLenum target, std::string_view name)`. -/
def GLBuffer.construct (target : GLenum) (name : String) (handle : GLuint) :
    GLBuffer × List GLCall :=
  ({ handle := handle, target := target },
   [GLCall.genBuffers handle, GLCall.bindBuffer target handle,
    GLCall.objectLabel GL_BUFFER handle name])

/-- `void bind() const { glBindBuffer(target, handle); }` — a `const` method:
the field state is returned unchanged. -/
def GLBuffer.bind (b : GLBuffer) : GLBuffer × List GLCall :=
  (b, [GLCall.bindBuffer b.target b.handle])

/-- `void unbind() const { glBindBuffer(target, 0); }` — a `const` method:
the field state is returned unchanged. -/
def GLBuffer.unbind (b : GLBuffer) : GLBuffer × List GLCall :=
  (b, [GLCall.bindBuffer b.target 0])

/-- `void setStorage(size_t size, ...) { glBufferStorage(target, size, data, flags); }` -/
def GLBuffer.setStorage (b : GLBuffer) (size : Int) : GLBuffer × List GLCall :=
  (b, [GLCall.bufferStorage b.target size])

/-- `void setData(size_t size, const void* data, GLenum usage)`. -/
def GLBuffer.setData (b : GLBuffer) (size : Int) (usage : GLenum) :
    GLBuffer × List GLCall :=
  (b, [GLCall.bufferData b.target size usage])

/-- `void map(GLenum access) { glMapBuffer(target, access); }` — the driver
returns a mapped pointer (the `driverPtr` oracle argument); the source is a
`void` method and the pointer appears nowhere in its body's effects. -/
def GLBuffer.map (b : GLBuffer) (access : GLenum) (driverPtr : Nat) :
    GLBuffer × List GLCall :=
  (b, [GLCall.mapBuffer b.target access])

/-- `void unmap(GLenum access) { glUnmapBuffer(target); }` — `access` is not
used in the body. -/
def GLBuffer.unmap (b : GLBuffer) (access : GLenum) : GLBuffer × List GLCall :=
  (b, [GLCall.unmapBuffer b.target])

/-- `struct GLFBO final : GLHandle` with its `mutable GLenum target` field. -/
structure GLFBO where
  handle : GLuint
  target : GLenum
  deriving DecidableEq, Repr

/-- `GLFBO::GLFBO(...)`: gen, bind, label, then the 1D/2D/3D storage dispatch
on `depth != 1` / `height != 1` (the source really calls `glTexStorage*` here). -/
def GLFBO.construct (target : GLenum) (name : String) (levels : Int)
    (internalformat : GLenum) (width height depth : Int) (handle : GLuint) :
    GLFBO × List GLCall :=
  ({ handle := handle, target := target },
   [GLCall.genFramebuffers handle, GLCall.bindFramebuffer target handle,
    GLCall.objectLabel GL_FRAMEBUFFER handle name] ++
   (if depth ≠ 1 then
      [GLCall.texStorage3D target levels internalformat width height depth]
    else if height ≠ 1 then
      [GLCall.texStorage2D target levels internalformat width height]
    else
      [GLCall.texStorage1D target levels internalformat width]))

/-- `void bind(GLenum tgt) const { target = tgt; glBindFramebuffer(target, handle); }` -/
def GLFBO.bind (f : GLFBO) (tgt : GLenum) : GLFBO × List GLCall :=
  ({ f with target := tgt }, [GLCall.bindFramebuffer tgt f.handle])

/-- `void unbind() const { glBindFramebuffer(target, 0); target = 0; }` —
the unbind call uses the stored target, then the target is reset to 0. -/
def GLFBO.unbind (f : GLFBO) : GLFBO × List GLCall :=
  ({ f with target := 0 }, [GLCall.bindFramebuffer f.target 0])

/-- `struct GLTexture final : GLHandle` with its `const GLenum target` field. -/
structure GLTexture where
  handle : GLuint
  target : GLenum
  deriving DecidableEq, Repr

/-- `GLTexture::GLTexture(GLenum target, std::string_view name, GLsizei levels,
GLenum internalformat, GLsizei width, GLsizei height = 1, GLsizei depth = 1)`:
gen, bind, label, then the 1D/2D/3D storage dispatch on `depth != 1` /
`height != 1`. -/
def GLTexture.construct (target : GLenum) (name : String) (levels : Int)
    (internalformat : GLenum) (width height depth : Int) (handle : GLuint) :
    GLTexture × List GLCall :=
  ({ handle := handle, target := target },
   [GLCall.genTextures handle, GLCall.bindTexture target handle,
    GLCall.objectLabel GL_TEXTURE handle name] ++
   (if depth ≠ 1 then
      [GLCall.texStorage3D target levels internalformat width height depth]
    else if height ≠ 1 then
      [GLCall.texStorage2D target levels internalformat width height]
    else
      [GLCall.texStorage1D target levels internalformat width]))

/-- `struct GLSLShader final : GLHandle`. -/
structure GLSLShader where
  handle : GLuint
  deriving DecidableEq, Repr

/-- `bool GLSLShader::compile()`: compile, query `GL_COMPILE_STATUS` (the
driver's answer is the `status` oracle argument), return `status != GL_FALSE`. -/
def GLSLShader.compile (handle : GLuint) (status : Int) : Bool × List GLCall :=
  (status != GL_FALSE,
   [GLCall.compileShader handle, GLCall.getShaderiv handle GL_COMPILE_STATUS])

/-- `std::unique_ptr<char[]> GLSLShader::getLog() const`: query
`GL_INFO_LOG_LENGTH` (driver answer `logLength`); only when it is `> 0`
allocate a buffer of exactly that length and fetch the log (driver content
`logContent`); otherwise return the empty (null) pointer. -/
def GLSLShader.getLog (handle : GLuint) (logLength : Int) (logContent : String) :
    Option String × List GLCall :=
  if logLength > 0 then
    (some logContent,
     [GLCall.getShaderiv handle GL_INFO_LOG_LENGTH,
      GLCall.heapAlloc logLength.toNat,
      GLCall.getShaderInfoLog handle logLength])
  else
    (none, [GLCall.getShaderiv handle GL_INFO_LOG_LENGTH])

/-- `GLSLShader::GLSLShader(GLenum type, std::string_view name, const char* code)`:
create, label, source, compile; on compile failure fetch and print the log. -/
def GLSLShader.construct (ty : GLenum) (name : String) (code : String)
    (handle : GLuint) (compileStatus logLength : Int) (logContent : String) :
    GLSLShader × List GLCall :=
  ({ handle := handle },
   [GLCall.createShader ty handle, GLCall.objectLabel GL_SHADER handle name,
    GLCall.shaderSource handle code] ++
   (GLSLShader.compile handle compileStatus).2 ++
   (if (GLSLShader.compile handle compileStatus).1 then []
    else
      (GLSLShader.getLog handle logLength logContent).2 ++
        [GLCall.printfLog (GLSLShader.getLog handle logLength logContent).1]))

/-- `struct GLSLProgram final : GLHandle`. -/
structure GLSLProgram where
  handle : GLuint
  deriving DecidableEq, Repr

/-- `bool GLSLProgram::link()`: link, validate, query `GL_LINK_STATUS`
(driver answer `status`), return `status != 0`. -/
def GLSLProgram.link (handle : GLuint) (status : Int) : Bool × List GLCall :=
  (status != 0,
   [GLCall.linkProgram handle, GLCall.validateProgram handle,
    GLCall.getProgramiv handle GL_LINK_STATUS])

/-- `std::unique_ptr<char[]> GLSLProgram::getLog() const`: same two-call
query-then-fetch shape as the shader variant, on the program counters. -/
def GLSLProgram.getLog (handle : GLuint) (logLength : Int) (logContent : String) :
    Option String × List GLCall :=
  if logLength > 0 then
    (some logContent,
     [GLCall.getProgramiv handle GL_INFO_LOG_LENGTH,
      GLCall.heapAlloc logLength.toNat,
      GLCall.getProgramInfoLog handle logLength])
  else
    (none, [GLCall.getProgramiv handle GL_INFO_LOG_LENGTH])

/-- `void use() const { glUseProgram(handle); }` -/
def GLSLProgram.use (p : GLSLProgram) : List GLCall :=
  [GLCall.useProgram p.handle]

/-- `GLSLProgram::GLSLProgram(std::string_view name,
std::initializer_list<GLSLShader*> shaders)`: create, label, attach each
shader, link; on failure fetch and print the log, on success `use()`; finally
detach each shader.  `shaders` is the list of the shaders' handles;
`linkStatus`, `logLength`, `logContent` are the driver's answers. -/
def GLSLProgram.construct (name : String) (shaders : List GLuint)
    (handle : GLuint) (linkStatus logLength : Int) (logContent : String) :
    GLSLProgram × List GLCall :=
  ({ handle := handle },
   [GLCall.createProgram handle, GLCall.objectLabel GL_PROGRAM handle name] ++
   shaders.map (fun s => GLCall.attachShader handle s) ++
   (GLSLProgram.link handle linkStatus).2 ++
   (if (GLSLProgram.link handle linkStatus).1 then
      [GLCall.useProgram handle]
    else
      (GLSLProgram.getLog handle logLength logContent).2 ++
        [GLCall.printfLog (GLSLProgram.getLog handle logLength logContent).1]) ++
   shaders.map (fun s => GLCall.detachShader handle s))

/-- `static const char* debugSourceString(GLenum source)`. -/
def debugSourceString (source : GLenum) : String :=
  if source = GL_DEBUG_SOURCE_API then "API"
  else if source = GL_DEBUG_SOURCE_WINDOW_SYSTEM then "Window System"
  else if source = GL_DEBUG_SOURCE_SHADER_COMPILER then "Shader Compiler"
  else if source = GL_DEBUG_SOURCE_THIRD_PARTY then "Third Party"
  else if source = GL_DEBUG_SOURCE_APPLICATION then "Application"
  else if source = GL_DEBUG_SOURCE_OTHER then "Other"
  else "UNKNOWN"

/-- `static const char* debugTypeString(GLenum type)`. -/
def debugTypeString (ty : GLenum) : String :=
  if ty = GL_DEBUG_TYPE_ERROR then "Error"
  else if ty = GL_DEBUG_TYPE_DEPRECATED_BEHAVIOR then "Deprecated"
  else if ty = GL_DEBUG_TYPE_UNDEFINED_BEHAVIOR then "Undefined"
  else if ty = GL_DEBUG_TYPE_PORTABILITY then "Portability"
  else if ty = GL_DEBUG_TYPE_PERFORMANCE then "Performance"
  else if ty = GL_DEBUG_TYPE_OTHER then "Other"
  else if ty = GL_DEBUG_TYPE_MARKER then "Marker"
  else "UNKNOWN"

/-- `static const char* debugSeverityString(GLenum severity)`. -/
def debugSeverityString (severity : GLenum) : String :=
  if severity = GL_DEBUG_SEVERITY_HIGH then "High"
  else if severity = GL_DEBUG_SEVERITY_MEDIUM then "Medium"
  else if severity = GL_DEBUG_SEVERITY_LOW then "Low"
  else if severity = GL_DEBUG_SEVERITY_NOTIFICATION then "Notification"
  else "UNKNOWN"

/-- The `%.*s` conversion of `fprintf`: print at most `length` characters of
`message`; a negative precision behaves as if no precision were given. -/
def formatPrinted (length : Int) (message : String) : String :=
  if length < 0 then message else String.mk (message.data.take length.toNat)

/-- The line the debug callback formats:
`"[%s] %s (%s): %.*s\n"` with the three label strings and the message. -/
def debugLine (source ty severity : GLenum) (length : Int) (message : String) :
    String :=
  "[" ++ debugSourceString source ++ "] " ++ debugTypeString ty ++ " (" ++
    debugSeverityString severity ++ "): " ++ formatPrinted length message ++ "\n"

/-- The lambda installed by `setupStderrDebugCallback`: print the formatted
line to stderr, then `exit(1)` iff the type is `GL_DEBUG_TYPE_ERROR` or the
severity is `GL_DEBUG_SEVERITY_HIGH`. -/
def debugCallback (source ty severity : GLenum) (length : Int)
    (message : String) : List GLCall :=
  GLCall.fprintfStderr (debugLine source ty severity length message) ::
    (if ty = GL_DEBUG_TYPE_ERROR ∨ severity = GL_DEBUG_SEVERITY_HIGH then
       [GLCall.exitCall 1]
     else [])

/-- `GLScopedDebugMarker`'s constructor: one `glPushDebugGroup` in debug
builds (`NDEBUG` not defined, `debugBuild = true`), no driver call otherwise. -/
def GLScopedDebugMarker.construct (debugBuild : Bool) (msg : String) :
    List GLCall :=
  if debugBuild then
    [GLCall.pushDebugGroup GL_DEBUG_SOURCE_APPLICATION 0 (-1) msg]
  else []

/-- `GLScopedDebugMarker`'s destructor: one `glPopDebugGroup` in debug
builds, no driver call otherwise. -/
def GLScopedDebugMarker.destruct (debugBuild : Bool) : List GLCall :=
  if debugBuild then [GLCall.popDebugGroup] else []

/-- A driver call that makes an object current for its target: the bind
calls of the four bindable kinds, plus program activation. -/
def isActivateCall : GLCall → Bool
  | GLCall.bindVertexArray _ => true
  | GLCall.bindBuffer _ _ => true
  | GLCall.bindTexture _ _ => true
  | GLCall.bindFramebuffer _ _ => true
  | GLCall.useProgram _ => true
  | _ => false

/-- A driver call that allocates object storage: the three `glTexStorage*`
paths and the two buffer-data paths. -/
def isStorageCall : GLCall → Bool
  | GLCall.texStorage1D _ _ _ _ => true
  | GLCall.texStorage2D _ _ _ _ _ => true
  | GLCall.texStorage3D _ _ _ _ _ _ => true
  | GLCall.bufferStorage _ _ => true
  | GLCall.bufferData _ _ _ => true
  | _ => false

/-- Modelled from the spec: the dimensionality-dispatch rule for the
storage-allocating constructors — if `depth ≠ 1` the 3D path is taken, else
if `height ≠ 1` the 2D path, else the 1D path.  Stated from the spec's words,
to be compared with the storage calls the constructors actually issue. -/
def specStorageSelection (target : GLenum) (levels : Int)
    (internalformat : GLenum) (width height depth : Int) : GLCall :=
  if depth ≠ 1 then
    GLCall.texStorage3D target levels internalformat width height depth
  else if height ≠ 1 then
    GLCall.texStorage2D target levels internalformat width height
  else
    GLCall.texStorage1D target levels internalformat width

/-- C2: for every target value `t`, `GLFBO::bind(t)` followed by
`GLFBO::unbind()` issues the unbind driver call (binding framebuffer 0) with
`t` — the target most recently bound, `unbind` taking no argument — and the
stored target afterwards equals the unbound sentinel 0. -/
theorem fbo_unbind_uses_last_bound_target (f : GLFBO) (t : GLenum) :
    (((f.bind t).1.unbind).2 = [GLCall.bindFramebuffer t 0]) ∧
    (((f.bind t).1.unbind).1.target = 0) := by
  simp [GLFBO.bind, GLFBO.unbind]

theorem fbo_unbind_uses_last_bound_target_witness :
    ((((GLFBO.mk 5 0).bind 0x8D40).1.unbind).2 = [GLCall.bindFramebuffer 0x8D40 0]) ∧
    ((((GLFBO.mk 5 0).bind 0x8D40).1.unbind).1.target = 0) :=
  fbo_unbind_uses_last_bound_target (GLFBO.mk 5 0) 0x8D40

/-- C7: `GLBuffer::map` discards the mapped pointer the driver returns — its
result does not depend on that pointer, its field state is unchanged and its
only effect is the single driver map call — and `GLBuffer::unmap(a)` ignores
its access parameter: for any `a1`, `a2` the results coincide, and the effect
is the single unmap driver call on the stored target. -/
theorem buffer_map_unmap_discard_semantics (b : GLBuffer)
    (a a1 a2 : GLenum) (p1 p2 : Nat) :
    (b.map a p1 = b.map a p2) ∧
    ((b.map a p1).1 = b) ∧
    ((b.map a p1).2 = [GLCall.mapBuffer b.target a]) ∧
    (b.unmap a1 = b.unmap a2) ∧
    ((b.unmap a1).2 = [GLCall.unmapBuffer b.target]) := by
  simp [GLBuffer.map, GLBuffer.unmap]

theorem buffer_map_unmap_discard_semantics_witness :
    ((GLBuffer.mk 3 0x8892).map 35000 17 = (GLBuffer.mk 3 0x8892).map 35000 99) ∧
    (((GLBuffer.mk 3 0x8892).map 35000 17).1 = GLBuffer.mk 3 0x8892) ∧
    (((GLBuffer.mk 3 0x8892).map 35000 17).2 = [GLCall.mapBuffer 0x8892 35000]) ∧
    ((GLBuffer.mk 3 0x8892).unmap 35000 = (GLBuffer.mk 3 0x8892).unmap 35001) ∧
    (((GLBuffer.mk 3 0x8892).unmap 35000).2 = [GLCall.unmapBuffer 0x8892]) :=
  buffer_map_unmap_discard_semantics (GLBuffer.mk 3 0x8892) 35000 35000 35001 17 99

/-- C10: `GLBuffer::unbind` binds object 0 to the stored target and leaves
the wrapper's fields (handle and target) unchanged, so a subsequent `bind`
rebinds the same handle to the same target; by contrast `GLFBO::unbind`
resets the stored target to 0. -/
theorem buffer_unbind_preserves_fields (b : GLBuffer) :
    ((b.unbind).1 = b) ∧
    ((b.unbind).2 = [GLCall.bindBuffer b.target 0]) ∧
    (((b.unbind).1.bind).2 = [GLCall.bindBuffer b.target b.handle]) ∧
    (∀ f : GLFBO, (f.unbind).1.target = 0) := by
  refine ⟨rfl, rfl, rfl, fun f => rfl⟩

theorem buffer_unbind_preserves_fields_witness :
    (((GLBuffer.mk 7 0x8892).unbind).1 = GLBuffer.mk 7 0x8892) ∧
    (((GLBuffer.mk 7 0x8892).unbind).2 = [GLCall.bindBuffer 0x8892 0]) ∧
    ((((GLBuffer.mk 7 0x8892).unbind).1.bind).2 = [GLCall.bindBuffer 0x8892 7]) ∧
    (∀ f : GLFBO, (f.unbind).1.target = 0) :=
  buffer_unbind_preserves_fields (GLBuffer.mk 7 0x8892)

/-- C1: for every set of shaders passed to `GLSLProgram`'s constructor,
construction begins by creating the program, attaches every shader, links;
if the link fails (driver link status 0) it prints the diagnostic log, and
if the link succeeds it activates the program; in both cases every shader
that was attached is detached, and the detach calls are the trailing calls
of construction. -/
theorem program_construction_sequence (name : String) (shaders : List GLuint)
    (handle : GLuint) (linkStatus logLength : Int) (logContent : String) :
    ((GLSLProgram.construct name shaders handle linkStatus logLength logContent).2.head? =
      some (GLCall.createProgram handle)) ∧
    (∀ s ∈ shaders, GLCall.attachShader handle s ∈
      (GLSLProgram.construct name shaders handle linkStatus logLength logContent).2) ∧
    (GLCall.linkProgram handle ∈
      (GLSLProgram.construct name shaders handle linkStatus logLength logContent).2) ∧
    (linkStatus = 0 →
      GLCall.printfLog (GLSLProgram.getLog handle logLength logContent).1 ∈
        (GLSLProgram.construct name shaders handle linkStatus logLength logContent).2) ∧
    (linkStatus ≠ 0 → GLCall.useProgram handle ∈
      (GLSLProgram.construct name shaders handle linkStatus logLength logContent).2) ∧
    (∀ s ∈ shaders, GLCall.detachShader handle s ∈
      (GLSLProgram.construct name shaders handle linkStatus logLength logContent).2) ∧
    (∃ pre, (GLSLProgram.construct name shaders handle linkStatus logLength logContent).2 =
      pre ++ shaders.map (fun s => GLCall.detachShader handle s)) := by
  refine ⟨rfl, ?_, ?_, ?_, ?_, ?_, ⟨_, rfl⟩⟩
  · intro s hs
    simp [GLSLProgram.construct, hs]
  · simp [GLSLProgram.construct, GLSLProgram.link]
  · intro h
    subst h
    simp [GLSLProgram.construct, GLSLProgram.link]
  · intro h
    simp [GLSLProgram.construct, GLSLProgram.link, h]
  · intro s hs
    simp [GLSLProgram.construct, hs]

theorem program_construction_sequence_witness :
    ((1 : Int) ≠ 0) ∧
    GLCall.useProgram 5 ∈ (GLSLProgram.construct "p" [1, 2] 5 1 0 "").2 :=
  ⟨by decide,
   (program_construction_sequence "p" [1, 2] 5 1 0 "").2.2.2.2.1 (by decide)⟩

/-- C6: for both `GLSLShader::getLog` and `GLSLProgram::getLog`: when the
driver reports a log length of zero the result is empty (null), the trace is
the single length query — so no log-fetch call and no heap allocation occur —
and when the reported length is positive a buffer of exactly the reported
length is allocated and then fetched into. -/
theorem getlog_zero_length_no_fetch_no_alloc (handle : GLuint)
    (logLength : Int) (logContent : String) :
    (logLength = 0 →
      (GLSLShader.getLog handle logLength logContent).1 = none ∧
      (GLSLShader.getLog handle logLength logContent).2 =
        [GLCall.getShaderiv handle GL_INFO_LOG_LENGTH] ∧
      (GLSLProgram.getLog handle logLength logContent).1 = none ∧
      (GLSLProgram.getLog handle logLength logContent).2 =
        [GLCall.getProgramiv handle GL_INFO_LOG_LENGTH]) ∧
    (0 < logLength →
      (GLSLShader.getLog handle logLength logContent).2 =
        [GLCall.getShaderiv handle GL_INFO_LOG_LENGTH,
         GLCall.heapAlloc logLength.toNat,
         GLCall.getShaderInfoLog handle logLength] ∧
      (GLSLProgram.getLog handle logLength logContent).2 =
        [GLCall.getProgramiv handle GL_INFO_LOG_LENGTH,
         GLCall.heapAlloc logLength.toNat,
         GLCall.getProgramInfoLog handle logLength]) := by
  constructor
  · intro h
    subst h
    simp [GLSLShader.getLog, GLSLProgram.getLog]
  · intro h
    simp [GLSLShader.getLog, GLSLProgram.getLog, h]

theorem getlog_zero_length_no_fetch_no_alloc_witness :
    ((0 : Int) = 0) ∧
    ((GLSLShader.getLog 4 0 "x").1 = none ∧
     (GLSLShader.getLog 4 0 "x").2 = [GLCall.getShaderiv 4 GL_INFO_LOG_LENGTH] ∧
     (GLSLProgram.getLog 4 0 "x").1 = none ∧
     (GLSLProgram.getLog 4 0 "x").2 = [GLCall.getProgramiv 4 GL_INFO_LOG_LENGTH]) :=
  ⟨rfl, (getlog_zero_length_no_fetch_no_alloc 4 0 "x").1 rfl⟩

/-- C5: for every debug message, the installed callback's first (and, when
not terminating, only) effect is the formatted stderr line built from the
human-readable source/type/severity labels plus the message text (`%.*s`
prints the whole message when the driver-passed length is the message
length), and it exits the process if and only if the type is
`GL_DEBUG_TYPE_ERROR` or the severity is `GL_DEBUG_SEVERITY_HIGH`. -/
theorem debug_callback_logs_then_fail_fast (source ty severity : GLenum)
    (length : Int) (message : String) :
    ((debugCallback source ty severity length message).head? =
      some (GLCall.fprintfStderr (debugLine source ty severity length message))) ∧
    (debugLine source ty severity length message =
      "[" ++ debugSourceString source ++ "] " ++ debugTypeString ty ++ " (" ++
        debugSeverityString severity ++ "): " ++
        formatPrinted length message ++ "\n") ∧
    (length = (message.data.length : Int) →
      formatPrinted length message = message) ∧
    (GLCall.exitCall 1 ∈ debugCallback source ty severity length message ↔
      (ty = GL_DEBUG_TYPE_ERROR ∨ severity = GL_DEBUG_SEVERITY_HIGH)) ∧
    (¬(ty = GL_DEBUG_TYPE_ERROR ∨ severity = GL_DEBUG_SEVERITY_HIGH) →
      debugCallback source ty severity length message =
        [GLCall.fprintfStderr (debugLine source ty severity length message)]) := by
  refine ⟨rfl, rfl, ?_, ?_, ?_⟩
  · intro h
    subst h
    obtain ⟨d⟩ := message
    simp [formatPrinted, String.length]
  · by_cases h : ty = GL_DEBUG_TYPE_ERROR ∨ severity = GL_DEBUG_SEVERITY_HIGH
    · simp [debugCallback, h]
    · simp [debugCallback, h]
  · intro h
    simp [debugCallback, h]

theorem debug_callback_logs_then_fail_fast_witness :
    GLCall.exitCall 1 ∈
      debugCallback GL_DEBUG_SOURCE_API GL_DEBUG_TYPE_ERROR
        GL_DEBUG_SEVERITY_LOW 2 "hi" :=
  (debug_callback_logs_then_fail_fast GL_DEBUG_SOURCE_API GL_DEBUG_TYPE_ERROR
      GL_DEBUG_SEVERITY_LOW 2 "hi").2.2.2.1.mpr (Or.inl rfl)

/-- C8: in debug builds (`NDEBUG` undefined) each `GLScopedDebugMarker` scope
issues exactly one debug-group push at construction and exactly one pop at
destruction; in optimized builds constructor and destructor issue no driver
calls at all. -/
theorem scoped_marker_push_pop_counts (msg : String) :
    (GLScopedDebugMarker.construct true msg =
      [GLCall.pushDebugGroup GL_DEBUG_SOURCE_APPLICATION 0 (-1) msg]) ∧
    ((GLScopedDebugMarker.construct true msg).length = 1) ∧
    (GLScopedDebugMarker.destruct true = [GLCall.popDebugGroup]) ∧
    ((GLScopedDebugMarker.destruct true).length = 1) ∧
    (GLScopedDebugMarker.construct false msg = []) ∧
    (GLScopedDebugMarker.destruct false = []) := by
  refine ⟨rfl, rfl, rfl, rfl, rfl, rfl⟩

theorem scoped_marker_push_pop_counts_witness :
    (GLScopedDebugMarker.construct true "frame" =
      [GLCall.pushDebugGroup GL_DEBUG_SOURCE_APPLICATION 0 (-1) "frame"]) ∧
    ((GLScopedDebugMarker.construct true "frame").length = 1) ∧
    (GLScopedDebugMarker.destruct true = [GLCall.popDebugGroup]) ∧
    ((GLScopedDebugMarker.destruct true).length = 1) ∧
    (GLScopedDebugMarker.construct false "frame" = []) ∧
    (GLScopedDebugMarker.destruct false = []) :=
  scoped_marker_push_pop_counts "frame"

/-- C9: the three debug-string tables are total and never return a null
pointer: each enumerated case maps to its fixed human-readable label, every
value outside the enumerated cases maps to `"UNKNOWN"`, and the result is
never the empty/absent string. -/
theorem debug_strings_total_never_null (s t v : GLenum) :
    (debugSourceString GL_DEBUG_SOURCE_API = "API" ∧
     debugSourceString GL_DEBUG_SOURCE_WINDOW_SYSTEM = "Window System" ∧
     debugSourceString GL_DEBUG_SOURCE_SHADER_COMPILER = "Shader Compiler" ∧
     debugSourceString GL_DEBUG_SOURCE_THIRD_PARTY = "Third Party" ∧
     debugSourceString GL_DEBUG_SOURCE_APPLICATION = "Application" ∧
     debugSourceString GL_DEBUG_SOURCE_OTHER = "Other") ∧
    (debugTypeString GL_DEBUG_TYPE_ERROR = "Error" ∧
     debugTypeString GL_DEBUG_TYPE_DEPRECATED_BEHAVIOR = "Deprecated" ∧
     debugTypeString GL_DEBUG_TYPE_UNDEFINED_BEHAVIOR = "Undefined" ∧
     debugTypeString GL_DEBUG_TYPE_PORTABILITY = "Portability" ∧
     debugTypeString GL_DEBUG_TYPE_PERFORMANCE = "Performance" ∧
     debugTypeString GL_DEBUG_TYPE_OTHER = "Other" ∧
     debugTypeString GL_DEBUG_TYPE_MARKER = "Marker") ∧
    (debugSeverityString GL_DEBUG_SEVERITY_HIGH = "High" ∧
     debugSeverityString GL_DEBUG_SEVERITY_MEDIUM = "Medium" ∧
     debugSeverityString GL_DEBUG_SEVERITY_LOW = "Low" ∧
     debugSeverityString GL_DEBUG_SEVERITY_NOTIFICATION = "Notification") ∧
    (s ∉ [GL_DEBUG_SOURCE_API, GL_DEBUG_SOURCE_WINDOW_SYSTEM,
          GL_DEBUG_SOURCE_SHADER_COMPILER, GL_DEBUG_SOURCE_THIRD_PARTY,
          GL_DEBUG_SOURCE_APPLICATION, GL_DEBUG_SOURCE_OTHER] →
      debugSourceString s = "UNKNOWN") ∧
    (t ∉ [GL_DEBUG_TYPE_ERROR, GL_DEBUG_TYPE_DEPRECATED_BEHAVIOR,
          GL_DEBUG_TYPE_UNDEFINED_BEHAVIOR, GL_DEBUG_TYPE_PORTABILITY,
          GL_DEBUG_TYPE_PERFORMANCE, GL_DEBUG_TYPE_OTHER,
          GL_DEBUG_TYPE_MARKER] →
      debugTypeString t = "UNKNOWN") ∧
    (v ∉ [GL_DEBUG_SEVERITY_HIGH, GL_DEBUG_SEVERITY_MEDIUM,
          GL_DEBUG_SEVERITY_LOW, GL_DEBUG_SEVERITY_NOTIFICATION] →
      debugSeverityString v = "UNKNOWN") ∧
    (debugSourceString s ≠ "" ∧ debugTypeString t ≠ "" ∧
     debugSeverityString v ≠ "") := by
  refine ⟨⟨rfl, rfl, rfl, rfl, rfl, rfl⟩,
          ⟨rfl, rfl, rfl, rfl, rfl, rfl, rfl⟩,
          ⟨rfl, rfl, rfl, rfl⟩, ?_, ?_, ?_, ?_, ?_, ?_⟩
  · intro h
    simp only [List.mem_cons, List.not_mem_nil, or_false, not_or] at h
    obtain ⟨h1, h2, h3, h4, h5, h6⟩ := h
    simp [debugSourceString, h1, h2, h3, h4, h5, h6]
  · intro h
    simp only [List.mem_cons, List.not_mem_nil, or_false, not_or] at h
    obtain ⟨h1, h2, h3, h4, h5, h6, h7⟩ := h
    simp [debugTypeString, h1, h2, h3, h4, h5, h6, h7]
  · intro h
    simp only [List.mem_cons, List.not_mem_nil, or_false, not_or] at h
    obtain ⟨h1, h2, h3, h4⟩ := h
    simp [debugSeverityString, h1, h2, h3, h4]
  · unfold debugSourceString
    split_ifs <;> decide
  · unfold debugTypeString
    split_ifs <;> decide
  · unfold debugSeverityString
    split_ifs <;> decide

theorem debug_strings_total_never_null_witness :
    debugSourceString 1 = "UNKNOWN" :=
  (debug_strings_total_never_null 1 2 3).2.2.2.1 (by decide)

/-- C3 counterexample: the claim "every constructor issues a bind/activate
call on the newly created handle" fails for `GLSLShader`: at a concrete
input (a successfully compiling vertex shader) its construction trace
contains no bind/activate driver call at all. -/
theorem shader_construction_issues_no_bind :
    ((GLSLShader.construct 0x8B31 "vs" "void main()" 7 1 0 "").2.any
      (fun c => isActivateCall c)) = false := by decide

/-- C3 (amended): the `VAO`, `GLBuffer`, `GLTexture` and `GLFBO` constructors
allocate a driver handle, attach the given label and bind the new handle;
the `GLSLShader` constructor attaches the label but issues no bind/activate
call (shader objects are not bound); the `GLSLProgram` constructor attaches
the label and activates the new program exactly when the link succeeds —
on link failure it issues no bind/activate call either. -/
theorem constructor_bind_and_label_amended (name : String) (h : GLuint)
    (btarget ttarget ftarget sty : GLenum) (levels : Int) (ifmt : GLenum)
    (width height depth : Int) (code : String) (cst cll : Int) (clc : String)
    (shaders : List GLuint) (pst pll : Int) (plc : String) :
    (GLCall.bindVertexArray h ∈ (VAO.construct name h).2 ∧
     GLCall.objectLabel GL_VERTEX_ARRAY h name ∈ (VAO.construct name h).2) ∧
    (GLCall.bindBuffer btarget h ∈ (GLBuffer.construct btarget name h).2 ∧
     GLCall.objectLabel GL_BUFFER h name ∈ (GLBuffer.construct btarget name h).2) ∧
    (GLCall.bindTexture ttarget h ∈
      (GLTexture.construct ttarget name levels ifmt width height depth h).2 ∧
     GLCall.objectLabel GL_TEXTURE h name ∈
      (GLTexture.construct ttarget name levels ifmt width height depth h).2) ∧
    (GLCall.bindFramebuffer ftarget h ∈
      (GLFBO.construct ftarget name levels ifmt width height depth h).2 ∧
     GLCall.objectLabel GL_FRAMEBUFFER h name ∈
      (GLFBO.construct ftarget name levels ifmt width height depth h).2) ∧
    (GLCall.objectLabel GL_SHADER h name ∈
      (GLSLShader.construct sty name code h cst cll clc).2 ∧
     ((GLSLShader.construct sty name code h cst cll clc).2.any
       (fun c => isActivateCall c)) = false) ∧
    (GLCall.objectLabel GL_PROGRAM h name ∈
      (GLSLProgram.construct name shaders h pst pll plc).2 ∧
     (pst ≠ 0 → GLCall.useProgram h ∈
       (GLSLProgram.construct name shaders h pst pll plc).2) ∧
     (pst = 0 → ((GLSLProgram.construct name shaders h pst pll plc).2.any
       (fun c => isActivateCall c)) = false)) := by
  refine ⟨⟨?_, ?_⟩, ⟨?_, ?_⟩, ⟨?_, ?_⟩, ⟨?_, ?_⟩, ⟨?_, ?_⟩, ⟨?_, ?_, ?_⟩⟩
  · simp [VAO.construct]
  · simp [VAO.construct]
  · simp [GLBuffer.construct]
  · simp [GLBuffer.construct]
  · simp [GLTexture.construct]
  · simp [GLTexture.construct]
  · simp [GLFBO.construct]
  · simp [GLFBO.construct]
  · simp [GLSLShader.construct]
  · simp only [GLSLShader.construct, GLSLShader.compile, GLSLShader.getLog]
    split_ifs <;> rfl
  · simp [GLSLProgram.construct]
  · intro hp
    simp [GLSLProgram.construct, GLSLProgram.link, hp]
  · intro hp
    subst hp
    rcases lt_or_le 0 pll with hl | hl
    · simp [GLSLProgram.construct, GLSLProgram.link, GLSLProgram.getLog, hl,
        isActivateCall]
    · have hneg : ¬ (0 : Int) < pll := not_lt.mpr hl
      simp [GLSLProgram.construct, GLSLProgram.link, GLSLProgram.getLog, hneg,
        isActivateCall]

theorem constructor_bind_and_label_amended_witness :
    ((1 : Int) ≠ 0) ∧
    GLCall.useProgram 9 ∈ (GLSLProgram.construct "prog" [4] 9 1 0 "").2 :=
  ⟨by decide,
   (constructor_bind_and_label_amended "prog" 9 1 2 3 4 1 5 8 8 1 "src" 1 0 ""
      [4] 1 0 "").2.2.2.2.2.2.1 (by decide)⟩

/-- C4 counterexample: the claim "each of Buffer, Texture, and Framebuffer
construction picks exactly one of the 1D/2D/3D storage-allocation paths"
fails for `GLBuffer`: at a concrete input its construction trace contains no
storage-allocation call at all (zero paths are taken, not exactly one). -/
theorem buffer_construction_allocates_no_storage :
    ((GLBuffer.construct 0x8892 "vbo" 3).2.any (fun c => isStorageCall c)) =
      false := by decide

/-- C4 (amended): for the storage-allocating constructors `GLTexture` and
`GLFBO`, construction issues exactly one storage-allocation call, the one
the dimensionality rule selects (depth ≠ 1 → 3D, else height ≠ 1 → 2D, else
1D); `GLBuffer` construction issues no storage-allocation call (its storage
methods are separate and have no dimensionality dispatch). -/
theorem storage_dimensionality_dispatch_amended (ttex tfbo tbuf : GLenum)
    (name : String) (levels : Int) (ifmt : GLenum) (width height depth : Int)
    (h : GLuint) :
    ((GLTexture.construct ttex name levels ifmt width height depth h).2.filter
        (fun c => isStorageCall c) =
      [specStorageSelection ttex levels ifmt width height depth]) ∧
    ((GLFBO.construct tfbo name levels ifmt width height depth h).2.filter
        (fun c => isStorageCall c) =
      [specStorageSelection tfbo levels ifmt width height depth]) ∧
    ((GLBuffer.construct tbuf name h).2.filter (fun c => isStorageCall c) =
      []) := by
  refine ⟨?_, ?_, ?_⟩
  · simp only [GLTexture.construct, specStorageSelection]
    split_ifs <;> simp [isStorageCall]
  · simp only [GLFBO.construct, specStorageSelection]
    split_ifs <;> simp [isStorageCall]
  · simp [GLBuffer.construct, isStorageCall]

theorem storage_dimensionality_dispatch_amended_witness :
    ((GLTexture.construct 0x0DE1 "tex" 4 0x8058 64 64 1 2).2.filter
        (fun c => isStorageCall c) =
      [specStorageSelection 0x0DE1 4 0x8058 64 64 1]) ∧
    ((GLFBO.construct 0x8D40 "tex" 4 0x8058 64 64 1 2).2.filter
        (fun c => isStorageCall c) =
      [specStorageSelection 0x8D40 4 0x8058 64 64 1]) ∧
    ((GLBuffer.construct 0x8892 "tex" 2).2.filter (fun c => isStorageCall c) =
      []) :=
  storage_dimensionality_dispatch_amended 0x0DE1 0x8D40 0x8892 "tex" 4 0x8058
    64 64 1 2
